import Mathlib

/-!
Shallow embedding of `quantize_layer.py` from
`tensorflow_model_optimization/python/core/quantization/keras/`.

The file defines one Keras layer, `QuantizeLayer`, which wraps an externally
supplied `Quantizer` strategy object.  We embed the class's four methods
(`__init__`, `build`, `call`, and the `get_config` / `from_config` pair) as
executable Lean functions over abstract tensor (`T`), variable-value (`V`) and
configuration-value (`α`) types.  The host framework's machinery that the class
leans on (Keras base-layer construction, `tf_utils.smart_cond`,
`dict.copy`/`dict.pop`, `serialize_keras_object` / `deserialize_keras_object`)
is modelled explicitly where the claims depend on its behaviour; the quantizer
collaborator is an opaque record of functions, exactly as the source treats it.
-/

namespace QuantizeLayerModel

/-- Python exception values that the embedded methods can surface:
`ValueError` from `QuantizeLayer.__init__`, `KeyError` from `dict.pop`, and
an arbitrary error raised inside the delegated quantizer. -/
inductive PyError where
  | valueError (msg : String)
  | keyError (key : String)
  | quantizerError (msg : String)
deriving DecidableEq, Repr

/-- The tensor dtypes this module mentions (`tf.dtypes.int32` for the step
counter; floats otherwise). -/
inductive DType where
  | int32
  | float32
deriving DecidableEq, Repr

/-- A Keras weight as created by `Layer.add_weight`: its name, current value,
dtype and trainable flag. -/
structure Weight where
  name : String
  value : Int
  dtype : DType
  trainable : Bool
deriving DecidableEq, Repr

/-- Two's-complement wrap of an integer into the signed 32-bit range, the
representation an `int32` variable stores. -/
def int32cast (v : Int) : Int := (v + 2 ^ 31) % 2 ^ 32 - 2 ^ 31

/-- `Layer.add_weight` with a `tf.keras.initializers.Constant(c)` value:
the created variable holds the constant, wrapped into range for `int32`. -/
def add_weight (name : String) (c : Int) (dtype : DType) (trainable : Bool) :
    Weight :=
  { name := name
    value := match dtype with
      | DType.int32 => int32cast c
      | DType.float32 => c
    dtype := dtype
    trainable := trainable }

/-- The keyword dictionary built by `QuantizeLayer._dict_vars`:
`{'min_var': min_var, 'max_var': max_var}`. -/
structure VarsDict (V : Type) where
  min_var : V
  max_var : V
deriving DecidableEq, Repr

/-- Outcome of one quantizer invocation
`quantizer(inputs, step, train_var, min_var=…, max_var=…)`: the returned
tensor together with the values the variables hold afterwards (TF variables
are handed to the quantizer by reference and may be assigned inside it). -/
structure QuantApplied (T V : Type) where
  output : T
  min_var : V
  max_var : V
  step : Int
deriving DecidableEq, Repr

/-- The externally supplied `tfmot.quantization.keras.Quantizer` strategy,
kept opaque: `buildVars` is its `build(input_shape, name, layer)` method
(returning the `(min_var, max_var)` pair; the `layer` argument is the host
layer object, which the abstract quantizer observes only through the shape and
name it is also given), and `run` is its `__call__`, which may raise. -/
structure Quantizer (T V : Type) where
  buildVars : List Nat → String → V × V
  run : T → Weight → Bool → VarsDict V → Except PyError (QuantApplied T V)

/-- A Python value passed as the `quantizer` argument of
`QuantizeLayer.__init__`: `None`, an instance of `quantizers.Quantizer`, or
some other object that is not a `Quantizer` instance. -/
inductive PyQuantizerArg (T V : Type) where
  | pyNone
  | instQuant (q : Quantizer T V)
  | nonQuantizer

/-- The `QuantizeLayer` object after a successful `__init__`: it stores the
supplied quantizer, the keyword arguments forwarded to the Keras base
constructor (modelled as the base layer's stored configuration), and the
framework-assigned layer name. -/
structure QuantizeLayer (T V α : Type) where
  quantizer : Quantizer T V
  baseKwargs : List (String × α)
  name : String

/-- Embeds `QuantizeLayer.__init__(self, quantizer, **kwargs)`:
`super().__init__(**kwargs)` stores the base configuration, then construction
raises `ValueError` unless `quantizer` is a `Quantizer` instance; on success
the supplied quantizer itself is stored. -/
def QuantizeLayer.init {T V α : Type} (quantizer : PyQuantizerArg T V)
    (kwargs : List (String × α)) (name : String) :
    Except PyError (QuantizeLayer T V α) :=
  match quantizer with
  | PyQuantizerArg.instQuant q =>
      Except.ok { quantizer := q, baseKwargs := kwargs, name := name }
  | _ =>
      Except.error (PyError.valueError
        ("quantizer should not be None, and should be an instance" ++
          "of `tfmot.quantization.keras.Quantizer`."))

/-- The layer after `build`: the unbuilt layer state plus the two tracking
variables returned by `quantizer.build` and the `optimizer_step` weight. -/
structure BuiltLayer (T V α : Type) where
  layer : QuantizeLayer T V α
  min_var : V
  max_var : V
  optimizer_step : Weight

/-- Embeds `QuantizeLayer.build(self, input_shape)`: ask the quantizer to
build the `(min_var, max_var)` pair, then add the `optimizer_step` weight with
a constant `-1` initial value, dtype `int32`, `trainable=False`. -/
def QuantizeLayer.build {T V α : Type} (l : QuantizeLayer T V α)
    (input_shape : List Nat) : BuiltLayer T V α :=
  let mv := l.quantizer.buildVars input_shape l.name
  { layer := l
    min_var := mv.1
    max_var := mv.2
    optimizer_step := add_weight "optimizer_step" (-1) DType.int32 false }

/-- Embeds `QuantizeLayer._dict_vars(self, min_var, max_var)`. -/
def dict_vars {V : Type} (min_var max_var : V) : VarsDict V :=
  { min_var := min_var, max_var := max_var }

/-- Embeds `tf_utils.smart_cond` for a statically known boolean predicate:
exactly one of the two thunks is invoked. -/
def smart_cond {β : Type} (pred : Bool) (true_fn false_fn : Unit → β) : β :=
  if pred then true_fn () else false_fn ()

/-- Embeds lines 65-66 of `call`: a `None` training argument is replaced by
the global Keras learning phase, `tf.keras.backend.learning_phase()`. -/
def resolveTraining (training : Option Bool) (learning_phase : Bool) : Bool :=
  match training with
  | Option.none => learning_phase
  | Option.some b => b

/-- Folds one quantizer outcome back into the layer state.  The layer's own
code assigns nothing: the post-call variable values are exactly the ones the
quantizer left behind, and everything else is carried over unchanged. -/
def applyQuantOutcome {T V α : Type} (l : BuiltLayer T V α)
    (r : Except PyError (QuantApplied T V)) :
    Except PyError (T × BuiltLayer T V α) :=
  match r with
  | Except.error e => Except.error e
  | Except.ok r =>
      Except.ok (r.output,
        { l with
            min_var := r.min_var
            max_var := r.max_var
            optimizer_step := { l.optimizer_step with value := r.step } })

/-- Embeds `QuantizeLayer.call(self, inputs, training=None)`: resolve the
training flag, build the two `quantizer_fn` thunks via `_make_quantizer_fn`,
select one with `smart_cond`, and delegate to the stored quantizer with the
layer's `optimizer_step`, `min_var` and `max_var`. -/
def BuiltLayer.call {T V α : Type} (l : BuiltLayer T V α) (inputs : T)
    (training : Option Bool) (learning_phase : Bool) :
    Except PyError (T × BuiltLayer T V α) :=
  let training := resolveTraining training learning_phase
  let make_quantizer_fn := fun (train_var : Bool) => fun (_ : Unit) =>
    l.layer.quantizer.run inputs l.optimizer_step train_var
      (dict_vars l.min_var l.max_var)
  applyQuantOutcome l
    (smart_cond training (make_quantizer_fn true) (make_quantizer_fn false))

/-- One step of Python's `dict(items)` construction: binding a key that is
already present overwrites its value in place; a new key is appended. -/
def dictInsert {α : Type} (acc : List (String × α)) (kv : String × α) :
    List (String × α) :=
  if acc.any (fun p => p.1 = kv.1) then
    acc.map (fun p => if p.1 = kv.1 then (p.1, kv.2) else p)
  else acc ++ [kv]

/-- Embeds Python `dict(items)` applied to a list of key/value pairs: a later
item with a duplicate key overwrites the stored value while the key keeps its
original position, as in `dict(list(base_config.items()) + list(config.items()))`. -/
def dictOfItems {α : Type} (items : List (String × α)) : List (String × α) :=
  items.foldl dictInsert []

/-- Embeds `QuantizeLayer.get_config(self)`: the Keras base `get_config`
(modelled as returning the stored base configuration) merged with the
`'quantizer'` entry; `serialize` stands for
`tf.keras.utils.serialize_keras_object`. -/
def QuantizeLayer.get_config {T V α : Type} (l : QuantizeLayer T V α)
    (serialize : Quantizer T V → α) : List (String × α) :=
  let base_config := l.baseKwargs
  let config := [("quantizer", serialize l.quantizer)]
  dictOfItems (base_config ++ config)

/-- A store of Python dictionaries indexed by object identity.  It models the
aliasing that `config.copy()` in `from_config` exists for: `dict.pop` mutates
one dictionary object in place, and a copy is a fresh object. -/
abbrev DictHeap (α : Type) : Type := List (List (String × α))

/-- The entries of the dictionary at address `a`. -/
def heapGet {α : Type} (h : DictHeap α) (a : Nat) : List (String × α) :=
  h.getD a []

/-- Embeds `dict.copy()`: allocate a fresh dictionary object with the same
entries and return its address. -/
def heapCopy {α : Type} (h : DictHeap α) (a : Nat) : DictHeap α × Nat :=
  (h ++ [heapGet h a], h.length)

/-- Embeds `dict.pop(key)` (no default): remove `key` from the dictionary at
`a` in place and return its value; raise `KeyError` when the key is absent. -/
def heapPop {α : Type} (h : DictHeap α) (a : Nat) (k : String) :
    Except PyError α × DictHeap α :=
  match (heapGet h a).find? (fun p => p.1 = k) with
  | Option.none => (Except.error (PyError.keyError k), h)
  | Option.some kv =>
      (Except.ok kv.2, h.set a ((heapGet h a).filter (fun p => ¬ p.1 = k)))

/-- Embeds `QuantizeLayer.from_config(cls, config)` operating on the
dictionary heap: copy the caller's dictionary, pop `'quantizer'` from the
copy, deserialize it (`deserialize` stands for
`tf.keras.utils.deserialize_keras_object`), and call the constructor with the
copy's remaining entries as keyword arguments.  `freshName` is the name the
framework assigns to the reconstructed layer. -/
def QuantizeLayer.from_config {T V α : Type} (h : DictHeap α) (a : Nat)
    (deserialize : α → PyQuantizerArg T V) (freshName : String) :
    Except PyError (QuantizeLayer T V α) × DictHeap α :=
  let copied := heapCopy h a
  match heapPop copied.1 copied.2 "quantizer" with
  | (Except.error e, h2) => (Except.error e, h2)
  | (Except.ok v, h2) =>
      let quantizer := deserialize v
      (QuantizeLayer.init quantizer (heapGet h2 copied.2) freshName, h2)

/-- A concrete quantizer over integer tensors, used to evaluate the theorems
at concrete inputs: it shifts the input by the selected bound and reports the
variables back unchanged. -/
def demoQuantizer : Quantizer Int Int :=
  { buildVars := fun _ _ => (-6, 6)
    run := fun t w train vars =>
      Except.ok
        { output := if train then t + vars.min_var else t + vars.max_var
          min_var := vars.min_var
          max_var := vars.max_var
          step := w.value } }

/-- A concrete quantizer whose invocation always raises. -/
def failQuantizer : Quantizer Int Int :=
  { buildVars := fun _ _ => (0, 0)
    run := fun _ _ _ _ =>
      Except.error (PyError.quantizerError "quantizer failure") }

/-- A concrete layer wrapping `demoQuantizer`. -/
def demoLayer : QuantizeLayer Int Int Int :=
  { quantizer := demoQuantizer
    baseKwargs := [("units", 3)]
    name := "quantize_layer" }

/-- `demoLayer` after `build`. -/
def demoBuilt : BuiltLayer Int Int Int := QuantizeLayer.build demoLayer [2, 3]

/-- A built layer wrapping `failQuantizer`. -/
def failBuilt : BuiltLayer Int Int Int :=
  QuantizeLayer.build
    { quantizer := failQuantizer, baseKwargs := [], name := "f" } [1]

/-- Helper: `call` equals the quantizer invocation on the resolved training
flag, folded back into the layer state. -/
theorem call_eq_run {T V α : Type} (l : BuiltLayer T V α) (inputs : T)
    (training : Option Bool) (phase : Bool) :
    BuiltLayer.call l inputs training phase =
      applyQuantOutcome l
        (l.layer.quantizer.run inputs l.optimizer_step
          (resolveTraining training phase)
          (dict_vars l.min_var l.max_var)) := by
  cases h : resolveTraining training phase <;>
    simp [BuiltLayer.call, smart_cond, h]

/-- Claim C1: constructing a `QuantizeLayer` raises `ValueError` exactly when
the supplied `quantizer` is `None` or not a `Quantizer` instance; when
construction succeeds, the supplied quantizer object itself is stored as the
layer's quantizer. -/
theorem init_valueError_iff {T V α : Type} (qa : PyQuantizerArg T V)
    (kwargs : List (String × α)) (name : String) :
    ((∃ msg, QuantizeLayer.init qa kwargs name =
        Except.error (PyError.valueError msg)) ↔
      (qa = PyQuantizerArg.pyNone ∨ ∀ q, qa ≠ PyQuantizerArg.instQuant q)) ∧
    (∀ q, qa = PyQuantizerArg.instQuant q →
      ∃ l, QuantizeLayer.init qa kwargs name = Except.ok l ∧
        l.quantizer = q) := by
  cases qa with
  | pyNone =>
      refine ⟨⟨fun _ => Or.inl rfl, fun _ => ⟨_, rfl⟩⟩, ?_⟩
      intro q h
      cases h
  | instQuant q =>
      refine ⟨⟨?_, ?_⟩, ?_⟩
      · rintro ⟨msg, h⟩
        simp [QuantizeLayer.init] at h
      · rintro (h | h)
        · cases h
        · exact absurd rfl (h q)
      · intro q' h
        cases h
        exact ⟨_, rfl, rfl⟩
  | nonQuantizer =>
      refine ⟨⟨fun _ => Or.inr ?_, fun _ => ⟨_, rfl⟩⟩, ?_⟩
      · intro q h
        cases h
      · intro q h
        cases h

/-- Witness for C1 at a concrete quantizer instance. -/
theorem init_valueError_iff_witness :
    ∃ l, QuantizeLayer.init (PyQuantizerArg.instQuant demoQuantizer)
        ([("units", (3 : Int))]) "quantize_layer" = Except.ok l ∧
      l.quantizer = demoQuantizer :=
  (init_valueError_iff (PyQuantizerArg.instQuant demoQuantizer)
    [("units", (3 : Int))] "quantize_layer").2 demoQuantizer rfl

/-- Claim C2: on a built layer, `call` with a definite boolean `training`
flag delegates to the quantizer with `train_var = true` exactly when
`training` is true, and `train_var = false` exactly when it is false. -/
theorem call_train_var_matches_training {T V α : Type} (l : BuiltLayer T V α)
    (inputs : T) (b : Bool) (phase : Bool) :
    BuiltLayer.call l inputs (Option.some b) phase =
      applyQuantOutcome l
        (l.layer.quantizer.run inputs l.optimizer_step b
          (dict_vars l.min_var l.max_var)) := by
  cases b <;> rfl

/-- Claim C3: on a built layer, when the stored quantizer invoked on
`(inputs, optimizer_step, train_var, min_var, max_var)` produces `r`, `call`
returns exactly `r.output`, with no transformation of its own. -/
theorem call_returns_quantizer_value {T V α : Type} (l : BuiltLayer T V α)
    (inputs : T) (training : Option Bool) (phase : Bool)
    (r : QuantApplied T V)
    (h : l.layer.quantizer.run inputs l.optimizer_step
          (resolveTraining training phase) (dict_vars l.min_var l.max_var) =
        Except.ok r) :
    ∃ l', BuiltLayer.call l inputs training phase =
      Except.ok (r.output, l') := by
  rw [call_eq_run, h]
  exact ⟨_, rfl⟩

/-- Witness for C3: the demo quantizer on input 10 in training mode returns
`10 + min_var = 4`, and so does `call`. -/
theorem call_returns_quantizer_value_witness :
    ∃ l', BuiltLayer.call demoBuilt 10 (Option.some true) false =
      Except.ok ((4 : Int), l') :=
  call_returns_quantizer_value demoBuilt 10 (Option.some true) false
    { output := 4, min_var := -6, max_var := 6, step := -1 } (by rfl)

/-- Claim C4: after `build`, the layer state is exactly the pre-build layer
(with its stored quantizer), the min/max pair returned by `quantizer.build`,
and the single `optimizer_step` weight — nothing else. -/
theorem build_state_exact {T V α : Type} (l : QuantizeLayer T V α)
    (input_shape : List Nat) :
    QuantizeLayer.build l input_shape =
      { layer := l
        min_var := (l.quantizer.buildVars input_shape l.name).1
        max_var := (l.quantizer.buildVars input_shape l.name).2
        optimizer_step :=
          add_weight "optimizer_step" (-1) DType.int32 false } := rfl

/-- Claim C8: a `None` training argument to `call` is replaced by the global
learning phase before the training/inference branch is selected. -/
theorem call_none_training_uses_learning_phase {T V α : Type}
    (l : BuiltLayer T V α) (inputs : T) (phase : Bool) :
    BuiltLayer.call l inputs Option.none phase =
      BuiltLayer.call l inputs (Option.some phase) phase := rfl

/-- Claim C9: after `build`, `optimizer_step` is a non-trainable `int32`
weight whose initial value is the constant `-1`. -/
theorem build_optimizer_step_weight {T V α : Type} (l : QuantizeLayer T V α)
    (input_shape : List Nat) :
    (QuantizeLayer.build l input_shape).optimizer_step =
      { name := "optimizer_step", value := -1, dtype := DType.int32,
        trainable := false } := by
  show add_weight "optimizer_step" (-1) DType.int32 false = _
  simp only [add_weight, int32cast]
  norm_num

/-- Claim C5: the layer's own `call` code leaves the quantizer reference and
the variables unchanged: the post-call state components are exactly the
values the quantizer's invocation reported, so if the quantizer leaves its
variables alone the whole layer state is unchanged. -/
theorem call_layer_code_mutates_nothing {T V α : Type} (l : BuiltLayer T V α)
    (inputs : T) (training : Option Bool) (phase : Bool) (out : T)
    (l' : BuiltLayer T V α)
    (h : BuiltLayer.call l inputs training phase = Except.ok (out, l')) :
    l'.layer = l.layer ∧
    ∀ r, l.layer.quantizer.run inputs l.optimizer_step
          (resolveTraining training phase) (dict_vars l.min_var l.max_var) =
        Except.ok r →
      l'.min_var = r.min_var ∧ l'.max_var = r.max_var ∧
      l'.optimizer_step = { l.optimizer_step with value := r.step } ∧
      (r.min_var = l.min_var → r.max_var = l.max_var →
        r.step = l.optimizer_step.value → l' = l) := by
  rw [call_eq_run] at h
  cases hx : l.layer.quantizer.run inputs l.optimizer_step
      (resolveTraining training phase) (dict_vars l.min_var l.max_var) with
  | error e0 =>
      rw [hx] at h
      simp [applyQuantOutcome] at h
  | ok r0 =>
      rw [hx] at h
      simp only [applyQuantOutcome] at h
      injection h with hpair
      injection hpair with hout hl'
      subst hl'
      refine ⟨rfl, ?_⟩
      intro r hr
      injection hr with hrr
      subst hrr
      refine ⟨rfl, rfl, rfl, ?_⟩
      intro hmn hmx hst
      rw [hmn, hmx, hst]

/-- Witness for C5: on the demo layer the quantizer reports its variables
back unchanged, and `call` leaves the layer state exactly as it was. -/
theorem call_layer_code_mutates_nothing_witness :
    demoBuilt.layer = demoBuilt.layer ∧
    ∀ r, demoBuilt.layer.quantizer.run 10 demoBuilt.optimizer_step
          (resolveTraining (Option.some false) true)
          (dict_vars demoBuilt.min_var demoBuilt.max_var) = Except.ok r →
      demoBuilt.min_var = r.min_var ∧ demoBuilt.max_var = r.max_var ∧
      demoBuilt.optimizer_step =
        { demoBuilt.optimizer_step with value := r.step } ∧
      (r.min_var = demoBuilt.min_var → r.max_var = demoBuilt.max_var →
        r.step = demoBuilt.optimizer_step.value → demoBuilt = demoBuilt) :=
  call_layer_code_mutates_nothing demoBuilt 10 (Option.some false) true
    16 demoBuilt (by rfl)

/-- Claim C7: `call` raises nothing of its own: any error it returns is
exactly an error returned by the delegated quantizer's invocation. -/
theorem call_error_only_from_quantizer {T V α : Type} (l : BuiltLayer T V α)
    (inputs : T) (training : Option Bool) (phase : Bool) (e : PyError)
    (h : BuiltLayer.call l inputs training phase = Except.error e) :
    l.layer.quantizer.run inputs l.optimizer_step
      (resolveTraining training phase) (dict_vars l.min_var l.max_var) =
      Except.error e := by
  rw [call_eq_run] at h
  cases hx : l.layer.quantizer.run inputs l.optimizer_step
      (resolveTraining training phase) (dict_vars l.min_var l.max_var) with
  | error e0 =>
      rw [hx] at h
      simp only [applyQuantOutcome] at h
      injection h with he
      rw [he]
  | ok r0 =>
      rw [hx] at h
      simp [applyQuantOutcome] at h

/-- Witness for C7: the failing quantizer's error is the error `call`
returns, unaltered. -/
theorem call_error_only_from_quantizer_witness :
    failBuilt.layer.quantizer.run 0 failBuilt.optimizer_step
      (resolveTraining (Option.some true) true)
      (dict_vars failBuilt.min_var failBuilt.max_var) =
      Except.error (PyError.quantizerError "quantizer failure") :=
  call_error_only_from_quantizer failBuilt 0 (Option.some true) true
    (PyError.quantizerError "quantizer failure") (by rfl)

/-- Helper: when the keys of `items` are pairwise distinct and disjoint from
the keys of `acc`, `dict`-insertion just appends the items. -/
theorem foldl_dictInsert_eq_append {α : Type} :
    ∀ (items acc : List (String × α)),
      (∀ kv ∈ items, ∀ p ∈ acc, ¬ p.1 = kv.1) →
      (items.map Prod.fst).Nodup →
      items.foldl dictInsert acc = acc ++ items := by
  intro items
  induction items with
  | nil =>
      intro acc _ _
      simp
  | cons kv tl ih =>
      intro acc hdisj hnd
      have hany : acc.any (fun p => p.1 = kv.1) = false := by
        simp only [List.any_eq_false, decide_eq_true_eq]
        intro p hp
        exact hdisj kv (List.mem_cons_self kv tl) p hp
      have hstep : dictInsert acc kv = acc ++ [kv] := by
        simp [dictInsert, hany]
      simp only [List.map_cons, List.nodup_cons, List.mem_map] at hnd
      obtain ⟨hnotin, hnd'⟩ := hnd
      have hdisj' : ∀ kv' ∈ tl, ∀ p ∈ acc ++ [kv], ¬ p.1 = kv'.1 := by
        intro kv' hkv' p hp
        rcases List.mem_append.mp hp with hpa | hpk
        · exact hdisj kv' (List.mem_cons_of_mem kv hkv') p hpa
        · rcases List.mem_singleton.mp hpk with rfl
          intro hcontra
          exact hnotin ⟨kv', hkv', hcontra.symm⟩
      rw [List.foldl_cons, hstep, ih (acc ++ [kv]) hdisj' hnd',
        List.append_assoc]
      rfl

/-- Helper: `get_config` is the base configuration with the serialized
quantizer appended, provided the base configuration's keys are distinct and
do not already contain `'quantizer'`. -/
theorem get_config_eq_append {T V α : Type} (l : QuantizeLayer T V α)
    (serialize : Quantizer T V → α)
    (hnd : (l.baseKwargs.map Prod.fst).Nodup)
    (hq : ∀ p ∈ l.baseKwargs, ¬ p.1 = "quantizer") :
    QuantizeLayer.get_config l serialize =
      l.baseKwargs ++ [("quantizer", serialize l.quantizer)] := by
  unfold QuantizeLayer.get_config dictOfItems
  refine foldl_dictInsert_eq_append _ [] (by simp) ?_
  simp only [List.map_append, List.map_cons, List.map_nil]
  rw [List.nodup_append]
  refine ⟨hnd, List.nodup_singleton _, ?_⟩
  intro x hx
  rcases List.mem_map.mp hx with ⟨p, hp, rfl⟩
  simpa using hq p hp

/-- Helper: general characterization of `from_config` on a dictionary that
has a `'quantizer'` entry: the constructor receives the deserialized popped
value and the remaining entries of the copy, and every dictionary that
existed before the call is untouched (only the fresh copy is mutated). -/
theorem from_config_spec {T V α : Type} (h : DictHeap α) (a : Nat)
    (deserialize : α → PyQuantizerArg T V) (freshName : String)
    (kv : String × α)
    (hfind : (heapGet h a).find? (fun p => p.1 = "quantizer") =
      Option.some kv) :
    (QuantizeLayer.from_config h a deserialize freshName).1 =
      QuantizeLayer.init (deserialize kv.2)
        ((heapGet h a).filter (fun p => ¬ p.1 = "quantizer")) freshName ∧
    ∀ b, b < h.length →
      heapGet (QuantizeLayer.from_config h a deserialize freshName).2 b =
        heapGet h b := by
  have hget : heapGet (h ++ [heapGet h a]) h.length = heapGet h a := by
    simp only [heapGet, List.getD_eq_getElem?_getD,
      List.getElem?_concat_length]
    rfl
  have hpop : heapPop (h ++ [heapGet h a]) h.length "quantizer" =
      (Except.ok kv.2, (h ++ [heapGet h a]).set h.length
        ((heapGet h a).filter (fun p => ¬ p.1 = "quantizer"))) := by
    unfold heapPop
    rw [hget, hfind]
  have hfc : QuantizeLayer.from_config h a deserialize freshName =
      (QuantizeLayer.init (deserialize kv.2)
        (heapGet ((h ++ [heapGet h a]).set h.length
          ((heapGet h a).filter (fun p => ¬ p.1 = "quantizer"))) h.length)
        freshName,
       (h ++ [heapGet h a]).set h.length
         ((heapGet h a).filter (fun p => ¬ p.1 = "quantizer"))) := by
    simp only [QuantizeLayer.from_config, heapCopy, hpop]
  have hS : heapGet ((h ++ [heapGet h a]).set h.length
      ((heapGet h a).filter (fun p => ¬ p.1 = "quantizer"))) h.length =
      (heapGet h a).filter (fun p => ¬ p.1 = "quantizer") := by
    have hlen : h.length < (h ++ [heapGet h a]).length := by simp
    show ((h ++ [heapGet h a]).set h.length
        ((heapGet h a).filter (fun p => ¬ p.1 = "quantizer"))).getD
        h.length [] = _
    rw [List.getD_eq_getElem?_getD, List.getElem?_set_self hlen]
    rfl
  constructor
  · rw [hfc]
    simp only []
    rw [hS]
  · intro b hb
    rw [hfc]
    have hne : h.length ≠ b := Nat.ne_of_gt hb
    simp only [heapGet, List.getD_eq_getElem?_getD,
      List.getElem?_set_ne hne, List.getElem?_append]
    simp [hb]

/-- Claim C6: configuration round-trip.  For a layer whose quantizer is
serializable (its serialization deserializes back to a `Quantizer` instance
`q'`), `from_config (get_config ())` constructs a layer whose quantizer is
exactly `q'` — the deserialization of the original quantizer's serialization —
and whose remaining keyword configuration is exactly the original base
configuration.  The side conditions record the framework invariant that base
configuration keys are distinct and never include `'quantizer'`. -/
theorem from_config_get_config_roundtrip {T V α : Type}
    (l : QuantizeLayer T V α) (serialize : Quantizer T V → α)
    (deserialize : α → PyQuantizerArg T V) (freshName : String)
    (q' : Quantizer T V)
    (hser : deserialize (serialize l.quantizer) = PyQuantizerArg.instQuant q')
    (hnd : (l.baseKwargs.map Prod.fst).Nodup)
    (hq : ∀ p ∈ l.baseKwargs, ¬ p.1 = "quantizer") :
    (QuantizeLayer.from_config [QuantizeLayer.get_config l serialize] 0
        deserialize freshName).1 =
      Except.ok
        { quantizer := q'
          baseKwargs := l.baseKwargs
          name := freshName } := by
  have hd := get_config_eq_append l serialize hnd hq
  have hbase_none : l.baseKwargs.find? (fun p => p.1 = "quantizer") =
      Option.none := by
    rw [List.find?_eq_none]
    intro p hp
    simpa using hq p hp
  have hfind : (heapGet [QuantizeLayer.get_config l serialize] 0).find?
      (fun p => p.1 = "quantizer") =
      Option.some ("quantizer", serialize l.quantizer) := by
    have : heapGet [QuantizeLayer.get_config l serialize] 0 =
        QuantizeLayer.get_config l serialize := rfl
    rw [this, hd, List.find?_append, hbase_none]
    simp
  obtain ⟨h1, _⟩ := from_config_spec [QuantizeLayer.get_config l serialize] 0
    deserialize freshName ("quantizer", serialize l.quantizer) hfind
  rw [h1]
  have hfil : (heapGet [QuantizeLayer.get_config l serialize] 0).filter
      (fun p => ¬ p.1 = "quantizer") = l.baseKwargs := by
    have : heapGet [QuantizeLayer.get_config l serialize] 0 =
        QuantizeLayer.get_config l serialize := rfl
    rw [this, hd, List.filter_append]
    have h2 : l.baseKwargs.filter (fun p => ¬ p.1 = "quantizer") =
        l.baseKwargs :=
      List.filter_eq_self.mpr (fun p hp => by simpa using hq p hp)
    rw [h2]
    simp
  rw [hfil]
  show QuantizeLayer.init (deserialize (serialize l.quantizer)) _ _ = _
  rw [hser]
  rfl

/-- Deserialization map used to evaluate the configuration theorems: the
token `99` stands for the serialized form of `demoQuantizer`. -/
def demoDeserialize (v : Int) : PyQuantizerArg Int Int :=
  if v = 99 then PyQuantizerArg.instQuant demoQuantizer
  else PyQuantizerArg.pyNone

/-- Serialization map matching `demoDeserialize`. -/
def demoSerialize (_ : Quantizer Int Int) : Int := 99

/-- Witness for C6 on the demo layer. -/
theorem from_config_get_config_roundtrip_witness :
    (QuantizeLayer.from_config
        [QuantizeLayer.get_config demoLayer demoSerialize] 0 demoDeserialize
        "quantize_1").1 =
      Except.ok
        { quantizer := demoQuantizer
          baseKwargs := demoLayer.baseKwargs
          name := "quantize_1" } :=
  from_config_get_config_roundtrip demoLayer demoSerialize demoDeserialize
    "quantize_1" demoQuantizer (by rfl) (by decide) (by decide)

/-- Claim C10: on a configuration dictionary containing a `'quantizer'`
entry, `from_config` leaves the caller's dictionary unchanged (it pops from a
fresh copy), and passes the deserialized popped value together with every
other entry — unmodified — to the constructor. -/
theorem from_config_leaves_caller_dict {T V α : Type} (h : DictHeap α)
    (a : Nat) (deserialize : α → PyQuantizerArg T V) (freshName : String)
    (kv : String × α) (ha : a < h.length)
    (hfind : (heapGet h a).find? (fun p => p.1 = "quantizer") =
      Option.some kv) :
    heapGet (QuantizeLayer.from_config h a deserialize freshName).2 a =
      heapGet h a ∧
    (QuantizeLayer.from_config h a deserialize freshName).1 =
      QuantizeLayer.init (deserialize kv.2)
        ((heapGet h a).filter (fun p => ¬ p.1 = "quantizer")) freshName := by
  obtain ⟨h1, h2⟩ := from_config_spec h a deserialize freshName kv hfind
  exact ⟨h2 a ha, h1⟩

/-- The caller's configuration dictionary used to evaluate C10, as the only
pre-existing object of the dictionary store. -/
def demoConfigHeap : DictHeap Int := [[("quantizer", 99), ("x", 5)]]

/-- Witness for C10 on a concrete configuration dictionary. -/
theorem from_config_leaves_caller_dict_witness :
    heapGet (QuantizeLayer.from_config demoConfigHeap 0 demoDeserialize
        "quantize_2").2 0 = heapGet demoConfigHeap 0 ∧
    (QuantizeLayer.from_config demoConfigHeap 0 demoDeserialize
        "quantize_2").1 =
      QuantizeLayer.init (demoDeserialize 99)
        ((heapGet demoConfigHeap 0).filter (fun p => ¬ p.1 = "quantizer"))
        "quantize_2" :=
  from_config_leaves_caller_dict demoConfigHeap 0 demoDeserialize
    "quantize_2" ("quantizer", 99) (by decide) (by rfl)
